import Mathlib

/-!
Formal model of the blas_benchmark measurement engine.

The development shallowly embeds the measurement core of the repository:
the FLOP model (src/benchmark/blas_functions.h, namespace flops), the
cache-size clamping in the BenchmarkRunner constructor and the
statistics/throughput computation of run_single_benchmark
(src/benchmark/benchmark.cpp), the per-kernel warmup/timed loop shared by
benchmark_dot / benchmark_axpy / benchmark_scal / benchmark_gemv /
benchmark_gemm (src/benchmark/blas_functions.cpp), the per-level dispatch
loops run_level1/2/3 and run_all, the cache evictor flush_cache
(src/utils/timer.h), and the size validation in main (src/main.cpp).

Modelling conventions:
  - C++ double arithmetic is modelled by exact rational arithmetic (ℚ);
    the timing values themselves are opaque inputs, supplied as an oracle
    elapsed : Nat -> ℚ giving the elapsed milliseconds of the k-th backend
    invocation of the run (warmup invocations consume indices as well, but
    their values are never read, mirroring the discarded warmup results).
  - std::size_t arithmetic wraps modulo 2^64; where the source computes in
    size_t the model reduces modulo usizeMod.
  - the external compute backend (OpenBLAS) is opaque: a backend call is
    modelled only by the advancing invocation counter, and the elapsed
    time of a timed call is read from the oracle.  Division by zero in ℚ
    yields 0 where C++ would produce NaN (only reachable with cycles = 0,
    which is analysed separately).
-/

/-- Modulus of std::size_t arithmetic on the 64-bit targets this program
is built for. -/
def usizeMod : Nat := 2 ^ 64

namespace flops

/-- FLOP count of ddot (blas_functions.h:43-46): computed as 2 * n in
std::size_t, hence modulo 2^64. -/
def dot (n : Nat) : Nat := 2 * n % usizeMod

/-- FLOP count of daxpy (blas_functions.h:49-52): 2 * n in std::size_t. -/
def axpy (n : Nat) : Nat := 2 * n % usizeMod

/-- FLOP count of dscal (blas_functions.h:55-58): n, returned unchanged. -/
def scal (n : Nat) : Nat := n % usizeMod

/-- FLOP count of dgemv (blas_functions.h:62-65): 2 * m * n in
std::size_t. -/
def gemv (m n : Nat) : Nat := 2 * m * n % usizeMod

/-- FLOP count of dgemm (blas_functions.h:69-72): 2 * m * n * k in
std::size_t. -/
def gemm (m n k : Nat) : Nat := 2 * m * n * k % usizeMod

end flops

/-- Result of std::min_element over a non-empty range of doubles
(benchmark.cpp:109); the [] case is never read by the modelled code paths
with cycles >= 1 (on an empty range the C++ dereferences the end iterator,
which is undefined behaviour). -/
def min_time : List ℚ → ℚ
  | [] => 0
  | x :: xs => xs.foldl min x

/-- Result of std::max_element over a non-empty range (benchmark.cpp:110). -/
def max_time : List ℚ → ℚ
  | [] => 0
  | x :: xs => xs.foldl max x

/-- Average latency: std::accumulate(times, 0.0) / times.size()
(benchmark.cpp:111). -/
def avg_time (times : List ℚ) : ℚ := times.sum / (times.length : ℚ)

/-- Throughput derivation of run_single_benchmark (benchmark.cpp:113-116):
time_sec = avg_time_ms / 1000.0, gflops = flops / (time_sec * 1e9). -/
def gflops_of (flopsCount : Nat) (avg_ms : ℚ) : ℚ :=
  (flopsCount : ℚ) / ((avg_ms / 1000) * 10 ^ 9)

/-- Execution configuration (config_parser.h, struct BenchmarkConfig),
restricted to the fields the measurement engine reads.  threads, cycles
and warmup are C++ ints; the model uses Nat for cycles/warmup (the loops
run max(v,0) times and every claim concerns non-negative counts) and Int
for threads, which is only copied into results.  Level sizes model the
non-negative value range of the stored size_t/int fields. -/
structure BenchmarkConfig where
  threads : Int := 1
  cycles : Nat := 5
  warmup : Nat := 3
  flush_cache : Bool := true
  level1_size : Option Nat := none
  level2_size : Option (Nat × Nat) := none
  level3_size : Option (Nat × Nat × Nat) := none
  level1_functions : List String := []
  level2_functions : List String := []
  level3_functions : List String := []
deriving DecidableEq

/-- One operation's outcome (benchmark.h, struct BenchmarkResult). -/
structure BenchmarkResult where
  function_name : String := ""
  config_str : String := ""
  threads : Int := 0
  min_time_ms : ℚ := 0
  avg_time_ms : ℚ := 0
  max_time_ms : ℚ := 0
  gflops : ℚ := 0
  flops : Nat := 0
deriving DecidableEq

/-- Full run output (benchmark.h, struct BenchmarkReport); the system-info
snapshot is external I/O and is not modelled.  warnings records the names
passed to spdlog::warn for unrecognized operations, in order. -/
structure BenchmarkReport where
  level1_results : List BenchmarkResult := []
  level2_results : List BenchmarkResult := []
  level3_results : List BenchmarkResult := []
  warnings : List String := []
  config : BenchmarkConfig := {}
deriving DecidableEq

/-- Cache size selection of the BenchmarkRunner constructor
(benchmark.cpp:25-39): m_cache_size = l1 + l2 + l3 (size_t addition),
replaced by 16 MiB when smaller than 1 MiB. -/
def effective_cache_size (l1 l2 l3 : Nat) : Nat :=
  let s := (l1 + l2 + l3) % usizeMod
  if s < 1024 * 1024 then 16 * 1024 * 1024 else s

/-- Common warmup/timed loop of benchmark_dot / benchmark_axpy /
benchmark_scal / benchmark_gemv / benchmark_gemm
(blas_functions.cpp:44-253; the five instantiations differ only in the
opaque backend routine invoked and are embedded once): warmup backend
invocations with results discarded, then cycles timed invocations whose
elapsed times are accumulated, returning total_time / cycles.  s is the
number of backend invocations made so far in the run; the returned
counter is s + warmup + cycles.  The flush flag and cache size direct the
cache evictor, which performs no backend invocation. -/
def benchmark_kernel (warmup cycles : Nat) (flush : Bool) (cacheSize : Nat)
    (elapsed : Nat → ℚ) (s : Nat) : ℚ × Nat :=
  let s1 := s + warmup
  let total := ((List.range cycles).map (fun i => elapsed (s1 + i))).sum
  (total / (cycles : ℚ), s1 + cycles)

/-- Timing-collection loop of run_single_benchmark (benchmark.cpp:98-106):
for i in [0, cycles) the captured lambda is called, and each such lambda
(benchmark.cpp:137-139, 147-149, 157-159, 186-188, 215-217) invokes the
kernel benchmark with warmup = m_config.warmup and cycles = 1.  Returns
the collected times and the advanced invocation counter. -/
def collect_times (warmup : Nat) (flush : Bool) (cacheSize : Nat)
    (elapsed : Nat → ℚ) : Nat → Nat → List ℚ × Nat
  | 0, s => ([], s)
  | c + 1, s =>
    let t := benchmark_kernel warmup 1 flush cacheSize elapsed s
    let rest := collect_times warmup flush cacheSize elapsed c t.2
    (t.1 :: rest.1, rest.2)

/-- BenchmarkRunner::run_single_benchmark (benchmark.cpp:82-122): collects
cycle times via the lambda, then fills a BenchmarkResult with
min/avg/max statistics and the derived GFLOPS figure. -/
def run_single_benchmark (cfg : BenchmarkConfig) (cacheSize : Nat)
    (name cstr : String) (flopsCount : Nat) (elapsed : Nat → ℚ) (s : Nat) :
    BenchmarkResult × Nat :=
  let tc := collect_times cfg.warmup cfg.flush_cache cacheSize elapsed cfg.cycles s
  let avg := avg_time tc.1
  ({ function_name := name
     config_str := cstr
     threads := cfg.threads
     min_time_ms := min_time tc.1
     avg_time_ms := avg
     max_time_ms := max_time tc.1
     gflops := (flopsCount : ℚ) / ((avg / 1000) * 10 ^ 9)
     flops := flopsCount }, tc.2)

/-- Level-1 name dispatch of run_level1 (benchmark.cpp:133-166): the
if/else-if chain on func_name, yielding the display name and FLOP count,
or none for the warn-and-skip branch. -/
def dispatch1 (n : Nat) (func_name : String) : Option (String × Nat) :=
  if func_name = "cblas_ddot" then some ("ddot", flops.dot n)
  else if func_name = "cblas_daxpy" then some ("daxpy", flops.axpy n)
  else if func_name = "cblas_dscal" then some ("dscal", flops.scal n)
  else none

/-- Level-2 name dispatch of run_level2 (benchmark.cpp:182-194). -/
def dispatch2 (m n : Nat) (func_name : String) : Option (String × Nat) :=
  if func_name = "cblas_dgemv" then some ("dgemv", flops.gemv m n)
  else none

/-- Level-3 name dispatch of run_level3 (benchmark.cpp:211-223). -/
def dispatch3 (m n k : Nat) (func_name : String) : Option (String × Nat) :=
  if func_name = "cblas_dgemm" then some ("dgemm", flops.gemm m n k)
  else none

/-- Shape descriptor of run_level1 (benchmark.cpp:127). -/
def l1_config_str (n : Nat) : String := "N=" ++ toString n

/-- Shape descriptor of run_level2 (benchmark.cpp:176). -/
def l2_config_str (m n : Nat) : String :=
  "M=" ++ toString m ++ ",N=" ++ toString n

/-- Shape descriptor of run_level3 (benchmark.cpp:205). -/
def l3_config_str (m n k : Nat) : String :=
  "M=" ++ toString m ++ ",N=" ++ toString n ++ ",K=" ++ toString k

/-- BenchmarkRunner::run_level1 (benchmark.cpp:124-171) over the list of
configured function names: recognized names produce one BenchmarkResult
each via run_single_benchmark; unrecognized names are appended to the
warning log and skipped.  Returns (results, warned names, counter). -/
def run_level1 (cfg : BenchmarkConfig) (cacheSize n : Nat)
    (elapsed : Nat → ℚ) : List String → Nat → List BenchmarkResult × List String × Nat
  | [], s => ([], [], s)
  | name :: rest, s =>
    match dispatch1 n name with
    | some df =>
      let r := run_single_benchmark cfg cacheSize df.1 (l1_config_str n) df.2 elapsed s
      let tail := run_level1 cfg cacheSize n elapsed rest r.2
      (r.1 :: tail.1, tail.2.1, tail.2.2)
    | none =>
      let tail := run_level1 cfg cacheSize n elapsed rest s
      (tail.1, name :: tail.2.1, tail.2.2)

/-- BenchmarkRunner::run_level2 (benchmark.cpp:173-200). -/
def run_level2 (cfg : BenchmarkConfig) (cacheSize m n : Nat)
    (elapsed : Nat → ℚ) : List String → Nat → List BenchmarkResult × List String × Nat
  | [], s => ([], [], s)
  | name :: rest, s =>
    match dispatch2 m n name with
    | some df =>
      let r := run_single_benchmark cfg cacheSize df.1 (l2_config_str m n) df.2 elapsed s
      let tail := run_level2 cfg cacheSize m n elapsed rest r.2
      (r.1 :: tail.1, tail.2.1, tail.2.2)
    | none =>
      let tail := run_level2 cfg cacheSize m n elapsed rest s
      (tail.1, name :: tail.2.1, tail.2.2)

/-- BenchmarkRunner::run_level3 (benchmark.cpp:202-229). -/
def run_level3 (cfg : BenchmarkConfig) (cacheSize m n k : Nat)
    (elapsed : Nat → ℚ) : List String → Nat → List BenchmarkResult × List String × Nat
  | [], s => ([], [], s)
  | name :: rest, s =>
    match dispatch3 m n k name with
    | some df =>
      let r := run_single_benchmark cfg cacheSize df.1 (l3_config_str m n k) df.2 elapsed s
      let tail := run_level3 cfg cacheSize m n k elapsed rest r.2
      (r.1 :: tail.1, tail.2.1, tail.2.2)
    | none =>
      let tail := run_level3 cfg cacheSize m n k elapsed rest s
      (tail.1, name :: tail.2.1, tail.2.2)

/-- BenchmarkRunner::run_all (benchmark.cpp:47-80): each level runs only
when its size is present and its function list is non-empty; results and
warnings accumulate into the report. -/
def run_all (cfg : BenchmarkConfig) (cacheSize : Nat) (elapsed : Nat → ℚ)
    (s : Nat) : BenchmarkReport × Nat :=
  let p1 :=
    match cfg.level1_size with
    | some n =>
      if cfg.level1_functions.isEmpty then (([] : List BenchmarkResult), ([] : List String), s)
      else run_level1 cfg cacheSize n elapsed cfg.level1_functions s
    | none => (([] : List BenchmarkResult), ([] : List String), s)
  let p2 :=
    match cfg.level2_size with
    | some mn =>
      if cfg.level2_functions.isEmpty then (([] : List BenchmarkResult), ([] : List String), p1.2.2)
      else run_level2 cfg cacheSize mn.1 mn.2 elapsed cfg.level2_functions p1.2.2
    | none => (([] : List BenchmarkResult), ([] : List String), p1.2.2)
  let p3 :=
    match cfg.level3_size with
    | some mnk =>
      if cfg.level3_functions.isEmpty then (([] : List BenchmarkResult), ([] : List String), p2.2.2)
      else run_level3 cfg cacheSize mnk.1 mnk.2.1 mnk.2.2 elapsed cfg.level3_functions p2.2.2
    | none => (([] : List BenchmarkResult), ([] : List String), p2.2.2)
  ({ level1_results := p1.1
     level2_results := p2.1
     level3_results := p3.1
     warnings := p1.2.1 ++ p2.2.1 ++ p3.2.1
     config := cfg }, p3.2.2)

/-- Configuration validation in main (main.cpp:250-258): the program
proceeds to construct the runner iff at least one level size is present;
otherwise it prints an error and returns 1 before any measurement. -/
def sizes_configured (cfg : BenchmarkConfig) : Bool :=
  cfg.level1_size.isSome || cfg.level2_size.isSome || cfg.level3_size.isSome

/-- Condition of the specification's ConfigurationError taxonomy entry,
written from the spec's words for comparison with sizes_configured: some
benchmark level has both a size and a non-empty operation list. -/
def spec_level_runnable (cfg : BenchmarkConfig) : Bool :=
  (cfg.level1_size.isSome && !cfg.level1_functions.isEmpty) ||
  (cfg.level2_size.isSome && !cfg.level2_functions.isEmpty) ||
  (cfg.level3_size.isSome && !cfg.level3_functions.isEmpty)

/-- Element count of the eviction buffer (timer.h:57-63): buffer_size =
cache_size_bytes * 4 / sizeof(double), computed in std::size_t (integer
division, sizeof(double) = 8). -/
def flush_buffer_elems (cache_size_bytes : Nat) : Nat :=
  cache_size_bytes * 4 % usizeMod / 8

/-- Total byte size of the eviction buffer: element count times
sizeof(double). -/
def flush_buffer_bytes (cache_size_bytes : Nat) : Nat :=
  8 * flush_buffer_elems cache_size_bytes

/-- Touch loop of flush_cache (timer.h:63-74) over a buffer of n doubles:
the buffer starts zero-initialized (std::vector value initialization);
step i adds buffer[i] to the volatile accumulator and then stores i into
buffer[i].  flush_touch n returns (accumulator, buffer contents) after
the first n steps. -/
def flush_touch : Nat → ℚ × (Nat → ℚ)
  | 0 => (0, fun _ => (0 : ℚ))
  | n + 1 =>
    let p := flush_touch n
    (p.1 + p.2 n, Function.update p.2 n (n : ℚ))

/-! ### Aggregator lemmas -/

/-- Folding min over a list starting from a yields a value that is either
the seed or a list element, and is a lower bound for both. -/
theorem foldl_min_spec (xs : List ℚ) : ∀ a : ℚ,
    (xs.foldl min a = a ∨ xs.foldl min a ∈ xs) ∧ xs.foldl min a ≤ a ∧
      ∀ y ∈ xs, xs.foldl min a ≤ y := by
  induction xs with
  | nil => intro a; exact ⟨Or.inl rfl, le_refl a, by simp⟩
  | cons x xs ih =>
    intro a
    have h := ih (min a x)
    have hle : xs.foldl min (min a x) ≤ min a x := h.2.1
    refine ⟨?_, ?_, ?_⟩
    · rcases h.1 with h1 | h1
      · rcases le_total a x with hax | hax
        · exact Or.inl (by rw [List.foldl_cons, h1, min_eq_left hax])
        · exact Or.inr (by rw [List.foldl_cons, h1, min_eq_right hax]; exact List.mem_cons_self x xs)
      · exact Or.inr (List.mem_cons_of_mem x h1)
    · exact le_trans hle (min_le_left a x)
    · intro y hy
      rcases List.mem_cons.mp hy with rfl | hy
      · exact le_trans hle (min_le_right a y)
      · exact h.2.2 y hy

/-- Folding max over a list starting from a yields either the seed or a
list element, and an upper bound for both. -/
theorem foldl_max_spec (xs : List ℚ) : ∀ a : ℚ,
    (xs.foldl max a = a ∨ xs.foldl max a ∈ xs) ∧ a ≤ xs.foldl max a ∧
      ∀ y ∈ xs, y ≤ xs.foldl max a := by
  induction xs with
  | nil => intro a; exact ⟨Or.inl rfl, le_refl a, by simp⟩
  | cons x xs ih =>
    intro a
    have h := ih (max a x)
    have hle : max a x ≤ xs.foldl max (max a x) := h.2.1
    refine ⟨?_, ?_, ?_⟩
    · rcases h.1 with h1 | h1
      · rcases le_total a x with hax | hax
        · exact Or.inr (by rw [List.foldl_cons, h1, max_eq_right hax]; exact List.mem_cons_self x xs)
        · exact Or.inl (by rw [List.foldl_cons, h1, max_eq_left hax])
      · exact Or.inr (List.mem_cons_of_mem x h1)
    · exact le_trans (le_max_left a x) hle
    · intro y hy
      rcases List.mem_cons.mp hy with rfl | hy
      · exact le_trans (le_max_right a y) hle
      · exact h.2.2 y hy

/-- The reported minimum is a sample, and bounds every sample below. -/
theorem min_time_spec (ts : List ℚ) (h : ts ≠ []) :
    min_time ts ∈ ts ∧ ∀ y ∈ ts, min_time ts ≤ y := by
  match ts, h with
  | x :: xs, _ =>
    have h := foldl_min_spec xs x
    refine ⟨?_, ?_⟩
    · rcases h.1 with h1 | h1
      · rw [min_time, h1]; exact List.mem_cons_self x xs
      · exact List.mem_cons_of_mem x (by rw [min_time]; exact h1)
    · intro y hy
      rcases List.mem_cons.mp hy with rfl | hy
      · exact h.2.1
      · exact h.2.2 y hy

/-- The reported maximum is a sample, and bounds every sample above. -/
theorem max_time_spec (ts : List ℚ) (h : ts ≠ []) :
    max_time ts ∈ ts ∧ ∀ y ∈ ts, y ≤ max_time ts := by
  match ts, h with
  | x :: xs, _ =>
    have h := foldl_max_spec xs x
    refine ⟨?_, ?_⟩
    · rcases h.1 with h1 | h1
      · rw [max_time, h1]; exact List.mem_cons_self x xs
      · exact List.mem_cons_of_mem x (by rw [max_time]; exact h1)
    · intro y hy
      rcases List.mem_cons.mp hy with rfl | hy
      · exact h.2.1
      · exact h.2.2 y hy

/-- Lower bound transfer from samples to the arithmetic mean. -/
theorem le_avg_of_forall_le (ts : List ℚ) (h : ts ≠ []) (m : ℚ)
    (hm : ∀ y ∈ ts, m ≤ y) : m ≤ avg_time ts := by
  have hlen : (0 : ℚ) < (ts.length : ℚ) := by
    have : 0 < ts.length := List.length_pos.mpr h
    exact_mod_cast this
  have hsum : (ts.length : ℚ) * m ≤ ts.sum := by
    have := List.card_nsmul_le_sum ts m hm
    rwa [nsmul_eq_mul] at this
  rw [avg_time, le_div_iff hlen, mul_comm]
  exact hsum

/-- Upper bound transfer from samples to the arithmetic mean. -/
theorem avg_le_of_forall_le (ts : List ℚ) (h : ts ≠ []) (m : ℚ)
    (hm : ∀ y ∈ ts, y ≤ m) : avg_time ts ≤ m := by
  have hlen : (0 : ℚ) < (ts.length : ℚ) := by
    have : 0 < ts.length := List.length_pos.mpr h
    exact_mod_cast this
  have hsum : ts.sum ≤ (ts.length : ℚ) * m := by
    have := List.sum_le_card_nsmul ts m hm
    rwa [nsmul_eq_mul] at this
  rw [avg_time, div_le_iff hlen, mul_comm]
  exact hsum

/-! ### Measurement-loop lemmas -/

/-- The invocation counter advances by warmup + 1 per timed cycle of
run_single_benchmark (each captured lambda performs warmup discarded
invocations and one timed invocation). -/
theorem collect_times_counter (w : Nat) (fl : Bool) (cs : Nat) (elapsed : Nat → ℚ) :
    ∀ c s, (collect_times w fl cs elapsed c s).2 = s + c * (w + 1) := by
  intro c
  induction c with
  | zero => intro s; simp [collect_times]
  | succ c ih =>
    intro s
    show (collect_times w fl cs elapsed c (s + w + 1)).2 = _
    rw [ih]
    ring

/-- The collected sample list consists of the elapsed times of the timed
invocations: in cycle i the lambda performs w warmup invocations and then
reads the oracle at the timed invocation index s + i * (w + 1) + w. -/
theorem collect_times_list (w : Nat) (fl : Bool) (cs : Nat) (elapsed : Nat → ℚ) :
    ∀ c s, (collect_times w fl cs elapsed c s).1 =
      (List.range c).map (fun i => elapsed (s + i * (w + 1) + w)) := by
  intro c
  induction c with
  | zero => intro s; rfl
  | succ c ih =>
    intro s
    show (benchmark_kernel w 1 fl cs elapsed s).1 ::
        (collect_times w fl cs elapsed c (s + w + 1)).1 = _
    rw [ih, List.range_succ_eq_map, List.map_cons, List.map_map]
    refine congrArg₂ List.cons ?_ ?_
    · simp [benchmark_kernel, List.range_succ]
    · refine congrArg (fun f => List.map f (List.range c)) ?_
      funext i
      simp only [Function.comp_apply]
      congr 1
      rw [Nat.succ_eq_add_one]
      ring

/-- Number of collected samples equals the configured cycle count. -/
theorem collect_times_length (w : Nat) (fl : Bool) (cs : Nat) (elapsed : Nat → ℚ)
    (c s : Nat) : (collect_times w fl cs elapsed c s).1.length = c := by
  rw [collect_times_list]
  simp

/-- C2: for every non-empty sequence of timing samples the aggregator of
run_single_benchmark reports min equal to the least sample, max equal to
the greatest sample and avg equal to the arithmetic mean of all samples,
whence min <= avg <= max.  (The spec instance with cycles = 5, warmup = 0
and stubbed samples [1, 2, 3, 4, 5] ms is evaluated in the witness.) -/
theorem c2_aggregator (ts : List ℚ) (h : ts ≠ []) :
    min_time ts ∈ ts ∧ (∀ y ∈ ts, min_time ts ≤ y) ∧
    max_time ts ∈ ts ∧ (∀ y ∈ ts, y ≤ max_time ts) ∧
    avg_time ts = ts.sum / (ts.length : ℚ) ∧
    min_time ts ≤ avg_time ts ∧ avg_time ts ≤ max_time ts := by
  obtain ⟨hmem, hmin⟩ := min_time_spec ts h
  obtain ⟨hmem2, hmax⟩ := max_time_spec ts h
  exact ⟨hmem, hmin, hmem2, hmax, rfl,
    le_avg_of_forall_le ts h _ hmin, avg_le_of_forall_le ts h _ hmax⟩

/-- Configuration of the specification's aggregator example: cycles = 5,
warmup = 0 (cache flushing off so the stub indices are the cycle
numbers). -/
def cfgC2 : BenchmarkConfig :=
  { threads := 1, cycles := 5, warmup := 0, flush_cache := false,
    level1_size := some 1000000, level1_functions := ["cblas_ddot"] }

/-- Oracle stubbing the five timed calls to 1, 2, 3, 4, 5 ms. -/
def elapsedC2 : Nat → ℚ := fun k => (k : ℚ) + 1

/-- Sample sequence collected by the stubbed measurement loop. -/
def tsC2 : List ℚ :=
  (collect_times cfgC2.warmup cfgC2.flush_cache 0 elapsedC2 cfgC2.cycles 0).1

/-- Result produced by run_single_benchmark on the stubbed loop. -/
def rC2 : BenchmarkResult :=
  (run_single_benchmark cfgC2 0 "ddot" (l1_config_str 1000000)
    (flops.dot 1000000) elapsedC2 0).1

/-- Witness for C2: the stubbed instance has samples [1, 2, 3, 4, 5] and
the aggregator reports min = 1, avg = 3, max = 5. -/
theorem c2_witness :
    tsC2 ≠ [] ∧
    (min_time tsC2 ∈ tsC2 ∧ (∀ y ∈ tsC2, min_time tsC2 ≤ y) ∧
     max_time tsC2 ∈ tsC2 ∧ (∀ y ∈ tsC2, y ≤ max_time tsC2) ∧
     avg_time tsC2 = tsC2.sum / (tsC2.length : ℚ) ∧
     min_time tsC2 ≤ avg_time tsC2 ∧ avg_time tsC2 ≤ max_time tsC2) ∧
    tsC2 = [1, 2, 3, 4, 5] ∧
    rC2.min_time_ms = 1 ∧ rC2.avg_time_ms = 3 ∧ rC2.max_time_ms = 5 := by
  have hts : tsC2 = [1, 2, 3, 4, 5] := by
    rw [tsC2, collect_times_list]
    show (List.range 5).map _ = _
    rw [show (5 : Nat) = 4 + 1 by rfl, List.range_succ, List.range_succ,
      List.range_succ, List.range_succ, List.range_succ, List.range_zero]
    simp [elapsedC2, cfgC2]
    norm_num
  have hne : tsC2 ≠ [] := by rw [hts]; simp
  refine ⟨hne, c2_aggregator tsC2 hne, hts, ?_, ?_, ?_⟩
  · show min_time tsC2 = 1
    rw [hts, min_time]
    norm_num [min_def]
  · show avg_time tsC2 = 3
    rw [hts, avg_time]
    norm_num
  · show max_time tsC2 = 5
    rw [hts, max_time]
    norm_num [max_def]

/-- C1 (amended): one benchmarked operation with warmup count W and cycle
count C performs C timed executions, each preceded by W warmup
executions whose results are discarded (run_single_benchmark invokes the
kernel benchmark with cycle argument 1 in every iteration, so the W
warmups re-run before every timed cycle); the C elapsed times are
collected and averaged, and the total number of backend invocations is
C * (W + 1).  A single direct call of the kernel benchmark with counts
(W, C) does perform W discarded followed by C timed invocations. -/
theorem c1_loop_structure (w c : Nat) (fl : Bool) (cs : Nat)
    (elapsed : Nat → ℚ) (s : Nat) :
    (benchmark_kernel w c fl cs elapsed s).2 = s + w + c ∧
    (collect_times w fl cs elapsed c s).2 = s + c * (w + 1) ∧
    (collect_times w fl cs elapsed c s).1 =
      (List.range c).map (fun i => elapsed (s + i * (w + 1) + w)) ∧
    (collect_times w fl cs elapsed c s).1.length = c ∧
    avg_time (collect_times w fl cs elapsed c s).1 =
      (collect_times w fl cs elapsed c s).1.sum / (c : ℚ) := by
  refine ⟨rfl, collect_times_counter w fl cs elapsed c s,
    collect_times_list w fl cs elapsed c s, collect_times_length w fl cs elapsed c s, ?_⟩
  rw [avg_time, collect_times_length]

/-- C1 is refuted as stated: with warmup W = 1 and timed-cycle count
C = 2, one benchmarked operation makes 4 backend invocations
(C * (W + 1)), not W + C = 3, because run_single_benchmark re-runs the
warmup before every timed cycle. -/
theorem c1_counterexample :
    (collect_times 1 true (16 * 1024 * 1024) (fun _ => (1 : ℚ)) 2 0).2 = 4 ∧
    (1 + 2 : Nat) ≠
      (collect_times 1 true (16 * 1024 * 1024) (fun _ => (1 : ℚ)) 2 0).2 := by
  rw [collect_times_counter]
  norm_num

/-! ### FLOP model, cache floor, evictor, throughput -/

/-- C3 (amended): the FLOP model functions are pure closed-form functions
computing in std::size_t; whenever the mathematical value fits in 64 bits
they equal the spec formulas: dot and axpy give 2N, scal gives N, gemv
gives 2MN, gemm gives 2MNK; in general the value is reduced modulo
2^64. -/
theorem c3_flops_model (n m2 n2 m3 n3 k3 : Nat) :
    (2 * n < usizeMod → flops.dot n = 2 * n ∧ flops.axpy n = 2 * n) ∧
    (n < usizeMod → flops.scal n = n) ∧
    (2 * m2 * n2 < usizeMod → flops.gemv m2 n2 = 2 * m2 * n2) ∧
    (2 * m3 * n3 * k3 < usizeMod → flops.gemm m3 n3 k3 = 2 * m3 * n3 * k3) :=
  ⟨fun h => ⟨Nat.mod_eq_of_lt h, Nat.mod_eq_of_lt h⟩,
   fun h => Nat.mod_eq_of_lt h,
   fun h => Nat.mod_eq_of_lt h,
   fun h => Nat.mod_eq_of_lt h⟩

/-- Witness for C3 (amended) at concrete shapes. -/
theorem c3_witness :
    (2 * 1000000 < usizeMod ∧ flops.dot 1000000 = 2 * 1000000 ∧
      flops.axpy 1000000 = 2 * 1000000) ∧
    (1000000 < usizeMod ∧ flops.scal 1000000 = 1000000) ∧
    (2 * 1024 * 512 < usizeMod ∧ flops.gemv 1024 512 = 2 * 1024 * 512) ∧
    (2 * 64 * 32 * 16 < usizeMod ∧ flops.gemm 64 32 16 = 2 * 64 * 32 * 16) := by
  have h := c3_flops_model 1000000 1024 512 64 32 16
  exact ⟨⟨by decide, h.1 (by decide)⟩, ⟨by decide, h.2.1 (by decide)⟩,
    ⟨by decide, h.2.2.1 (by decide)⟩, ⟨by decide, h.2.2.2 (by decide)⟩⟩

/-- C3 is refuted as universally stated: the FLOP functions compute in
std::size_t, which wraps modulo 2^64, so at N = 2^63 the dot FLOP count
is 0 rather than 2N = 2^64. -/
theorem c3_counterexample :
    flops.dot (2 ^ 63) = 0 ∧ 2 * 2 ^ 63 ≠ flops.dot (2 ^ 63) := by
  constructor
  · show 2 * 2 ^ 63 % usizeMod = 0
    rw [usizeMod, show (2 : Nat) * 2 ^ 63 = 2 ^ 64 by ring, Nat.mod_self]
  · show 2 * 2 ^ 63 ≠ 2 * 2 ^ 63 % usizeMod
    rw [usizeMod, show (2 : Nat) * 2 ^ 63 = 2 ^ 64 by ring, Nat.mod_self]
    positivity

/-- C4: if the detected L1 + L2 + L3 sum is below 1 MiB the effective
eviction buffer size is the 16 MiB default, otherwise exactly that sum
(physical cache sizes always satisfy the no-wrap hypothesis). -/
theorem c4_cache_floor (l1 l2 l3 : Nat) (h : l1 + l2 + l3 < usizeMod) :
    (l1 + l2 + l3 < 1024 * 1024 →
      effective_cache_size l1 l2 l3 = 16 * 1024 * 1024) ∧
    (1024 * 1024 ≤ l1 + l2 + l3 →
      effective_cache_size l1 l2 l3 = l1 + l2 + l3) := by
  have hdef : effective_cache_size l1 l2 l3 =
      if (l1 + l2 + l3) % usizeMod < 1024 * 1024 then 16 * 1024 * 1024
      else (l1 + l2 + l3) % usizeMod := rfl
  rw [hdef, Nat.mod_eq_of_lt h]
  constructor
  · intro h2; rw [if_pos h2]
  · intro h2; rw [if_neg (not_lt.mpr h2)]

/-- Witness for C4: a detected total of 512 KiB yields the 16 MiB
default, not 512 KiB. -/
theorem c4_witness :
    524288 + 0 + 0 < usizeMod ∧ 524288 + 0 + 0 < 1024 * 1024 ∧
    effective_cache_size 524288 0 0 = 16 * 1024 * 1024 ∧
    effective_cache_size 524288 0 0 ≠ 524288 := by
  refine ⟨by decide, by decide,
    (c4_cache_floor 524288 0 0 (by decide)).1 (by decide), ?_⟩
  rw [(c4_cache_floor 524288 0 0 (by decide)).1 (by decide)]
  decide

/-- The touch loop keeps the volatile accumulator at the sum of the
pre-write (zero-initialized) values and ends with buffer[i] = i for every
touched index: each element is read before being written. -/
theorem flush_touch_spec : ∀ n, (flush_touch n).1 = 0 ∧
    ∀ i, (flush_touch n).2 i = if i < n then (i : ℚ) else 0 := by
  intro n
  induction n with
  | zero => exact ⟨rfl, fun i => by simp [flush_touch]⟩
  | succ n ih =>
    constructor
    · show (flush_touch n).1 + (flush_touch n).2 n = 0
      rw [ih.1, ih.2 n]
      simp
    · intro i
      show Function.update (flush_touch n).2 n (n : ℚ) i = _
      rw [Function.update_apply, ih.2 i]
      by_cases hin : i = n
      · subst hin; simp
      · rw [if_neg hin]
        by_cases hlt : i < n
        · rw [if_pos hlt, if_pos (Nat.lt_succ_of_lt hlt)]
        · rw [if_neg hlt, if_neg (by omega)]

/-- C8 (amended): the eviction buffer holds floor(4S/8) double elements,
i.e. 8 * floor(4S/8) bytes, which equals 4S exactly for every even S that
does not overflow size_t (cache sizes are always even in practice; for
odd S the byte total is 4S - 4); every element of the buffer is read
(the accumulator collects only pre-write, zero-initialized values) and
then written. -/
theorem c8_evictor (sz : Nat) :
    (sz % 2 = 0 → sz * 4 < usizeMod → flush_buffer_bytes sz = 4 * sz) ∧
    (flush_touch (flush_buffer_elems sz)).1 = 0 ∧
    (∀ i, i < flush_buffer_elems sz →
      (flush_touch (flush_buffer_elems sz)).2 i = (i : ℚ)) := by
  refine ⟨?_, (flush_touch_spec _).1, ?_⟩
  · intro h2 h4
    rw [flush_buffer_bytes, flush_buffer_elems, Nat.mod_eq_of_lt h4]
    omega
  · intro i hi
    rw [(flush_touch_spec _).2 i, if_pos hi]

/-- C8 is refuted as universally stated: at target size S = 1 byte the
buffer holds floor(4/8) = 0 elements, 0 bytes, which is not at least
4 * S = 4 (integer division of S * 4 by sizeof(double) loses the
remainder for odd S). -/
theorem c8_counterexample :
    flush_buffer_bytes 1 = 0 ∧ ¬ (4 * 1 ≤ flush_buffer_bytes 1) := by
  constructor <;> decide

/-- Witness for C8 (amended) at the even size 1 MiB: the buffer is
exactly 4 MiB and element 0 is read (as 0) then written (to 0). -/
theorem c8_witness :
    1048576 % 2 = 0 ∧ 1048576 * 4 < usizeMod ∧
    flush_buffer_bytes 1048576 = 4 * 1048576 ∧
    (flush_touch (flush_buffer_elems 1048576)).1 = 0 ∧
    0 < flush_buffer_elems 1048576 ∧
    (flush_touch (flush_buffer_elems 1048576)).2 0 = 0 := by
  have h := c8_evictor 1048576
  refine ⟨by decide, by decide, h.1 (by decide) (by decide), h.2.1, by decide, ?_⟩
  have h0 := h.2.2 0 (by decide)
  simpa using h0

/-- C9: run_single_benchmark derives gflops as FLOP count divided by
(mean latency in seconds times 10^9); for a fixed positive FLOP count
throughput strictly increases as the average latency strictly decreases,
and throughput is strictly positive whenever the FLOP count and the
average latency are. -/
theorem c9_throughput (cfg : BenchmarkConfig) (cacheSize : Nat)
    (name cstr : String) (fc : Nat) (elapsed : Nat → ℚ) (s : Nat)
    (F : Nat) (t1 t2 a : ℚ) :
    (run_single_benchmark cfg cacheSize name cstr fc elapsed s).1.gflops =
      gflops_of fc
        (run_single_benchmark cfg cacheSize name cstr fc elapsed s).1.avg_time_ms ∧
    (0 < F → 0 < t1 → t1 < t2 → gflops_of F t2 < gflops_of F t1) ∧
    (0 < F → 0 < a → 0 < gflops_of F a) := by
  have d : ∀ t : ℚ, (t / 1000) * 10 ^ 9 = t * 10 ^ 6 := fun t => by ring
  refine ⟨rfl, ?_, ?_⟩
  · intro hF h1 h12
    simp only [gflops_of, d]
    exact div_lt_div_of_pos_left (by exact_mod_cast hF)
      (mul_pos h1 (by norm_num)) (mul_lt_mul_of_pos_right h12 (by norm_num))
  · intro hF ha
    simp only [gflops_of, d]
    exact div_pos (by exact_mod_cast hF) (mul_pos ha (by norm_num))

/-- Witness for C9: with F = 2 FLOPs, halving the latency from 2 ms to
1 ms strictly raises the throughput, which is strictly positive. -/
theorem c9_witness :
    ((0 : Nat) < 2 ∧ (0 : ℚ) < 1 ∧ (1 : ℚ) < 2 ∧
      gflops_of 2 2 < gflops_of 2 1) ∧
    ((0 : Nat) < 2 ∧ (0 : ℚ) < 1 ∧ 0 < gflops_of 2 1) := by
  have h := c9_throughput {} 0 "" "" 0 (fun _ => 0) 0 2 1 2 1
  exact ⟨⟨by norm_num, by norm_num, by norm_num,
      h.2.1 (by norm_num) (by norm_num) (by norm_num)⟩,
    ⟨by norm_num, by norm_num, h.2.2 (by norm_num) (by norm_num)⟩⟩

/-! ### Validation, cycles = 0, unknown operations -/

/-- Configuration exhibiting the C6 failure: level 1 has a size but an
empty operation list, and no other level has a size (reachable via a
config file whose functions.level1 array is empty). -/
def cfgC6 : BenchmarkConfig :=
  { threads := 1, cycles := 5, warmup := 3, flush_cache := true,
    level1_size := some 1000 }

/-- C6 is refuted: cfgC6 has no level with both a size and a non-empty
operation list, yet the validation in main accepts it (the program
proceeds, runs no measurement, and exits 0 with an empty report) instead
of reporting a ConfigurationError and exiting non-zero. -/
theorem c6_counterexample :
    spec_level_runnable cfgC6 = false ∧ sizes_configured cfgC6 = true ∧
    (run_all cfgC6 (16 * 1024 * 1024) (fun _ => 1) 0).1.level1_results = [] ∧
    (run_all cfgC6 (16 * 1024 * 1024) (fun _ => 1) 0).1.level2_results = [] ∧
    (run_all cfgC6 (16 * 1024 * 1024) (fun _ => 1) 0).1.level3_results = [] :=
  ⟨rfl, rfl, rfl, rfl, rfl⟩

/-- C6 (amended): the program reports an error and exits non-zero before
any measurement exactly for the configurations in which no benchmark
level has a size; a level with a size but an empty operation list passes
validation and simply yields no results for that level. -/
theorem c6_amended (cfg : BenchmarkConfig) :
    (sizes_configured cfg = false ↔
      cfg.level1_size = none ∧ cfg.level2_size = none ∧ cfg.level3_size = none) ∧
    (spec_level_runnable cfg = false → cfg.level1_size = some 1000 →
      cfg.level1_functions = [] → sizes_configured cfg = true) := by
  constructor
  · rw [sizes_configured]
    cases cfg.level1_size <;> cases cfg.level2_size <;> cases cfg.level3_size <;> simp
  · intro _ h1 _
    rw [sizes_configured, h1]
    rfl

/-- Configuration with cycles = 0 and a valid level-1 size, as produced
by the command line --cycle 0 --level1 1000. -/
def cfgC5 : BenchmarkConfig :=
  { threads := 1, cycles := 0, warmup := 3, flush_cache := true,
    level1_size := some 1000, level1_functions := ["cblas_ddot"] }

/-- C5 describes a guard that the code lacks (code bug): with cycles = 0
the validation in main still accepts the configuration (it only checks
that some level size is present), the benchmark runs, the ddot sample
vector stays empty, and run_single_benchmark still produces a result —
in C++ it dereferences min_element/max_element of the empty vector
(undefined behaviour) and computes 0.0/0 (NaN) as the average — instead
of rejecting the configuration before any measurement as the
specification requires. -/
theorem c5_code_bug :
    sizes_configured cfgC5 = true ∧
    (collect_times cfgC5.warmup cfgC5.flush_cache (16 * 1024 * 1024)
      (fun _ => 1) cfgC5.cycles 0).1 = [] ∧
    (run_all cfgC5 (16 * 1024 * 1024) (fun _ => 1) 0).1.level1_results.length = 1 :=
  ⟨rfl, rfl, rfl⟩

/-- A level-1 name is recognized exactly when it is one of the three
literals of the closed level-1 set (String equality in the dispatch chain
is case-sensitive exact match). -/
theorem dispatch1_recognized (n : Nat) (nm : String) :
    (dispatch1 n nm).isSome = true ↔
      (nm = "cblas_ddot" ∨ nm = "cblas_daxpy" ∨ nm = "cblas_dscal") := by
  rw [dispatch1]
  split_ifs <;> simp_all

/-- The display names of the level-1 results are the dispatch images of
the recognized configured names, in configuration order. -/
theorem run_level1_names (cfg : BenchmarkConfig) (cacheSize n : Nat)
    (elapsed : Nat → ℚ) : ∀ names s,
    (run_level1 cfg cacheSize n elapsed names s).1.map (fun r => r.function_name) =
      names.filterMap (fun nm => (dispatch1 n nm).map Prod.fst) := by
  intro names
  induction names with
  | nil => intro s; rfl
  | cons name rest ih =>
    intro s
    cases hd : dispatch1 n name with
    | some df =>
      simp only [run_level1, hd, List.map_cons, List.filterMap_cons, Option.map_some]
      exact congrArg (List.cons df.1) (ih _)
    | none =>
      simp only [run_level1, hd, List.filterMap_cons, Option.map_none]
      exact ih _

/-- The warned names are exactly the unrecognized configured names, in
configuration order. -/
theorem run_level1_warnings (cfg : BenchmarkConfig) (cacheSize n : Nat)
    (elapsed : Nat → ℚ) : ∀ names s,
    (run_level1 cfg cacheSize n elapsed names s).2.1 =
      names.filter (fun nm => (dispatch1 n nm).isNone) := by
  intro names
  induction names with
  | nil => intro s; rfl
  | cons name rest ih =>
    intro s
    cases hd : dispatch1 n name with
    | some df =>
      simp only [run_level1, hd, List.filter_cons, Option.isNone_some,
        Bool.false_eq_true, if_false]
      exact ih _
    | none =>
      simp only [run_level1, hd, List.filter_cons, Option.isNone_none, if_true]
      exact congrArg (List.cons name) (ih _)

/-- Every configured name yields exactly one result or one warning. -/
theorem run_level1_split (cfg : BenchmarkConfig) (cacheSize n : Nat)
    (elapsed : Nat → ℚ) : ∀ names s,
    (run_level1 cfg cacheSize n elapsed names s).1.length +
      (run_level1 cfg cacheSize n elapsed names s).2.1.length = names.length := by
  intro names
  induction names with
  | nil => intro s; rfl
  | cons name rest ih =>
    intro s
    cases hd : dispatch1 n name with
    | some df =>
      simp only [run_level1, hd, List.length_cons]
      rw [Nat.add_right_comm, ih _]
    | none =>
      simp only [run_level1, hd, List.length_cons]
      rw [← Nat.add_assoc, ih _]

/-- The number of level-1 results is the number of recognized names. -/
theorem run_level1_count (cfg : BenchmarkConfig) (cacheSize n : Nat)
    (elapsed : Nat → ℚ) : ∀ names s,
    (run_level1 cfg cacheSize n elapsed names s).1.length =
      names.countP (fun nm => (dispatch1 n nm).isSome) := by
  intro names
  induction names with
  | nil => intro s; rfl
  | cons name rest ih =>
    intro s
    cases hd : dispatch1 n name with
    | some df =>
      simp only [run_level1, hd, List.length_cons, List.countP_cons,
        Option.isSome_some, if_true]
      rw [ih _]
    | none =>
      simp only [run_level1, hd, List.countP_cons, Option.isSome_none,
        Bool.false_eq_true, if_false]
      rw [ih _, Nat.add_zero]

/-- A level-2 name is recognized exactly when it is the single literal of
the closed level-2 set. -/
theorem dispatch2_recognized (m n : Nat) (nm : String) :
    (dispatch2 m n nm).isSome = true ↔ nm = "cblas_dgemv" := by
  rw [dispatch2]
  split_ifs <;> simp_all

/-- A level-3 name is recognized exactly when it is the single literal of
the closed level-3 set. -/
theorem dispatch3_recognized (m n k : Nat) (nm : String) :
    (dispatch3 m n k nm).isSome = true ↔ nm = "cblas_dgemm" := by
  rw [dispatch3]
  split_ifs <;> simp_all

/-- The display names of the level-2 results are the dispatch images of
the recognized configured names, in configuration order. -/
theorem run_level2_names (cfg : BenchmarkConfig) (cacheSize m n : Nat)
    (elapsed : Nat → ℚ) : ∀ names s,
    (run_level2 cfg cacheSize m n elapsed names s).1.map (fun r => r.function_name) =
      names.filterMap (fun nm => (dispatch2 m n nm).map Prod.fst) := by
  intro names
  induction names with
  | nil => intro s; rfl
  | cons name rest ih =>
    intro s
    cases hd : dispatch2 m n name with
    | some df =>
      simp only [run_level2, hd, List.map_cons, List.filterMap_cons, Option.map_some]
      exact congrArg (List.cons df.1) (ih _)
    | none =>
      simp only [run_level2, hd, List.filterMap_cons, Option.map_none]
      exact ih _

/-- The level-2 warned names are exactly the unrecognized configured
names, in configuration order. -/
theorem run_level2_warnings (cfg : BenchmarkConfig) (cacheSize m n : Nat)
    (elapsed : Nat → ℚ) : ∀ names s,
    (run_level2 cfg cacheSize m n elapsed names s).2.1 =
      names.filter (fun nm => (dispatch2 m n nm).isNone) := by
  intro names
  induction names with
  | nil => intro s; rfl
  | cons name rest ih =>
    intro s
    cases hd : dispatch2 m n name with
    | some df =>
      simp only [run_level2, hd, List.filter_cons, Option.isNone_some,
        Bool.false_eq_true, if_false]
      exact ih _
    | none =>
      simp only [run_level2, hd, List.filter_cons, Option.isNone_none, if_true]
      exact congrArg (List.cons name) (ih _)

/-- Every level-2 configured name yields exactly one result or one
warning. -/
theorem run_level2_split (cfg : BenchmarkConfig) (cacheSize m n : Nat)
    (elapsed : Nat → ℚ) : ∀ names s,
    (run_level2 cfg cacheSize m n elapsed names s).1.length +
      (run_level2 cfg cacheSize m n elapsed names s).2.1.length = names.length := by
  intro names
  induction names with
  | nil => intro s; rfl
  | cons name rest ih =>
    intro s
    cases hd : dispatch2 m n name with
    | some df =>
      simp only [run_level2, hd, List.length_cons]
      rw [Nat.add_right_comm, ih _]
    | none =>
      simp only [run_level2, hd, List.length_cons]
      rw [← Nat.add_assoc, ih _]

/-- The number of level-2 results is the number of recognized names. -/
theorem run_level2_count (cfg : BenchmarkConfig) (cacheSize m n : Nat)
    (elapsed : Nat → ℚ) : ∀ names s,
    (run_level2 cfg cacheSize m n elapsed names s).1.length =
      names.countP (fun nm => (dispatch2 m n nm).isSome) := by
  intro names
  induction names with
  | nil => intro s; rfl
  | cons name rest ih =>
    intro s
    cases hd : dispatch2 m n name with
    | some df =>
      simp only [run_level2, hd, List.length_cons, List.countP_cons,
        Option.isSome_some, if_true]
      rw [ih _]
    | none =>
      simp only [run_level2, hd, List.countP_cons, Option.isSome_none,
        Bool.false_eq_true, if_false]
      rw [ih _, Nat.add_zero]

/-- The display names of the level-3 results are the dispatch images of
the recognized configured names, in configuration order. -/
theorem run_level3_names (cfg : BenchmarkConfig) (cacheSize m n k : Nat)
    (elapsed : Nat → ℚ) : ∀ names s,
    (run_level3 cfg cacheSize m n k elapsed names s).1.map (fun r => r.function_name) =
      names.filterMap (fun nm => (dispatch3 m n k nm).map Prod.fst) := by
  intro names
  induction names with
  | nil => intro s; rfl
  | cons name rest ih =>
    intro s
    cases hd : dispatch3 m n k name with
    | some df =>
      simp only [run_level3, hd, List.map_cons, List.filterMap_cons, Option.map_some]
      exact congrArg (List.cons df.1) (ih _)
    | none =>
      simp only [run_level3, hd, List.filterMap_cons, Option.map_none]
      exact ih _

/-- The level-3 warned names are exactly the unrecognized configured
names, in configuration order. -/
theorem run_level3_warnings (cfg : BenchmarkConfig) (cacheSize m n k : Nat)
    (elapsed : Nat → ℚ) : ∀ names s,
    (run_level3 cfg cacheSize m n k elapsed names s).2.1 =
      names.filter (fun nm => (dispatch3 m n k nm).isNone) := by
  intro names
  induction names with
  | nil => intro s; rfl
  | cons name rest ih =>
    intro s
    cases hd : dispatch3 m n k name with
    | some df =>
      simp only [run_level3, hd, List.filter_cons, Option.isNone_some,
        Bool.false_eq_true, if_false]
      exact ih _
    | none =>
      simp only [run_level3, hd, List.filter_cons, Option.isNone_none, if_true]
      exact congrArg (List.cons name) (ih _)

/-- Every level-3 configured name yields exactly one result or one
warning. -/
theorem run_level3_split (cfg : BenchmarkConfig) (cacheSize m n k : Nat)
    (elapsed : Nat → ℚ) : ∀ names s,
    (run_level3 cfg cacheSize m n k elapsed names s).1.length +
      (run_level3 cfg cacheSize m n k elapsed names s).2.1.length = names.length := by
  intro names
  induction names with
  | nil => intro s; rfl
  | cons name rest ih =>
    intro s
    cases hd : dispatch3 m n k name with
    | some df =>
      simp only [run_level3, hd, List.length_cons]
      rw [Nat.add_right_comm, ih _]
    | none =>
      simp only [run_level3, hd, List.length_cons]
      rw [← Nat.add_assoc, ih _]

/-- The number of level-3 results is the number of recognized names. -/
theorem run_level3_count (cfg : BenchmarkConfig) (cacheSize m n k : Nat)
    (elapsed : Nat → ℚ) : ∀ names s,
    (run_level3 cfg cacheSize m n k elapsed names s).1.length =
      names.countP (fun nm => (dispatch3 m n k nm).isSome) := by
  intro names
  induction names with
  | nil => intro s; rfl
  | cons name rest ih =>
    intro s
    cases hd : dispatch3 m n k name with
    | some df =>
      simp only [run_level3, hd, List.length_cons, List.countP_cons,
        Option.isSome_some, if_true]
      rw [ih _]
    | none =>
      simp only [run_level3, hd, List.countP_cons, Option.isSome_none,
        Bool.false_eq_true, if_false]
      rw [ih _, Nat.add_zero]

/-- C7: for every level (1, 2 and 3), when the level's operation list
contains exactly one recognized name, the level produces exactly one
BenchmarkResult (the one for the recognized name, via the dispatch
mapping), logs one warning per unrecognized name (all the remaining
names), skipping them and continuing; recognition is case-sensitive
exact string match against the closed per-level sets
{cblas_ddot, cblas_daxpy, cblas_dscal}, {cblas_dgemv} and
{cblas_dgemm}. -/
theorem c7_unknown_skipped (cfg : BenchmarkConfig)
    (cacheSize n m2 n2 m3 n3 k3 : Nat) (elapsed : Nat → ℚ)
    (names1 names2 names3 : List String) (s : Nat) :
    (names1.countP (fun nm => (dispatch1 n nm).isSome) = 1 →
      (run_level1 cfg cacheSize n elapsed names1 s).1.length = 1 ∧
      (run_level1 cfg cacheSize n elapsed names1 s).1.map (fun r => r.function_name) =
        names1.filterMap (fun nm => (dispatch1 n nm).map Prod.fst) ∧
      (run_level1 cfg cacheSize n elapsed names1 s).2.1 =
        names1.filter (fun nm => (dispatch1 n nm).isNone) ∧
      (run_level1 cfg cacheSize n elapsed names1 s).2.1.length = names1.length - 1) ∧
    (names2.countP (fun nm => (dispatch2 m2 n2 nm).isSome) = 1 →
      (run_level2 cfg cacheSize m2 n2 elapsed names2 s).1.length = 1 ∧
      (run_level2 cfg cacheSize m2 n2 elapsed names2 s).1.map (fun r => r.function_name) =
        names2.filterMap (fun nm => (dispatch2 m2 n2 nm).map Prod.fst) ∧
      (run_level2 cfg cacheSize m2 n2 elapsed names2 s).2.1 =
        names2.filter (fun nm => (dispatch2 m2 n2 nm).isNone) ∧
      (run_level2 cfg cacheSize m2 n2 elapsed names2 s).2.1.length = names2.length - 1) ∧
    (names3.countP (fun nm => (dispatch3 m3 n3 k3 nm).isSome) = 1 →
      (run_level3 cfg cacheSize m3 n3 k3 elapsed names3 s).1.length = 1 ∧
      (run_level3 cfg cacheSize m3 n3 k3 elapsed names3 s).1.map (fun r => r.function_name) =
        names3.filterMap (fun nm => (dispatch3 m3 n3 k3 nm).map Prod.fst) ∧
      (run_level3 cfg cacheSize m3 n3 k3 elapsed names3 s).2.1 =
        names3.filter (fun nm => (dispatch3 m3 n3 k3 nm).isNone) ∧
      (run_level3 cfg cacheSize m3 n3 k3 elapsed names3 s).2.1.length = names3.length - 1) ∧
    (∀ nm, (dispatch1 n nm).isSome = true ↔
      (nm = "cblas_ddot" ∨ nm = "cblas_daxpy" ∨ nm = "cblas_dscal")) ∧
    (∀ nm, (dispatch2 m2 n2 nm).isSome = true ↔ nm = "cblas_dgemv") ∧
    (∀ nm, (dispatch3 m3 n3 k3 nm).isSome = true ↔ nm = "cblas_dgemm") := by
  refine ⟨?_, ?_, ?_, fun nm => dispatch1_recognized n nm,
    fun nm => dispatch2_recognized m2 n2 nm,
    fun nm => dispatch3_recognized m3 n3 k3 nm⟩
  · intro h
    have hlen : (run_level1 cfg cacheSize n elapsed names1 s).1.length = 1 := by
      rw [run_level1_count cfg cacheSize n elapsed names1 s, h]
    have hsplit := run_level1_split cfg cacheSize n elapsed names1 s
    exact ⟨hlen, run_level1_names cfg cacheSize n elapsed names1 s,
      run_level1_warnings cfg cacheSize n elapsed names1 s, by omega⟩
  · intro h
    have hlen : (run_level2 cfg cacheSize m2 n2 elapsed names2 s).1.length = 1 := by
      rw [run_level2_count cfg cacheSize m2 n2 elapsed names2 s, h]
    have hsplit := run_level2_split cfg cacheSize m2 n2 elapsed names2 s
    exact ⟨hlen, run_level2_names cfg cacheSize m2 n2 elapsed names2 s,
      run_level2_warnings cfg cacheSize m2 n2 elapsed names2 s, by omega⟩
  · intro h
    have hlen : (run_level3 cfg cacheSize m3 n3 k3 elapsed names3 s).1.length = 1 := by
      rw [run_level3_count cfg cacheSize m3 n3 k3 elapsed names3 s, h]
    have hsplit := run_level3_split cfg cacheSize m3 n3 k3 elapsed names3 s
    exact ⟨hlen, run_level3_names cfg cacheSize m3 n3 k3 elapsed names3 s,
      run_level3_warnings cfg cacheSize m3 n3 k3 elapsed names3 s, by omega⟩

/-- Witness for C7, one instance per level: [cblas_DDOT, cblas_ddot,
junk] holds one recognized level-1 name (matching is case-sensitive, so
cblas_DDOT is not recognized) and yields exactly the ddot result with
two warnings; [cblas_DGEMV, cblas_dgemv] yields exactly the dgemv result
with one warning; [bogus, cblas_dgemm] yields exactly the dgemm result
with one warning. -/
theorem c7_witness :
    (["cblas_DDOT", "cblas_ddot", "junk"].countP
        (fun nm => (dispatch1 1000 nm).isSome) = 1 ∧
      (run_level1 {} 0 1000 (fun _ => 1)
        ["cblas_DDOT", "cblas_ddot", "junk"] 0).1.length = 1 ∧
      (run_level1 {} 0 1000 (fun _ => 1)
        ["cblas_DDOT", "cblas_ddot", "junk"] 0).1.map
          (fun r => r.function_name) = ["ddot"] ∧
      (run_level1 {} 0 1000 (fun _ => 1)
        ["cblas_DDOT", "cblas_ddot", "junk"] 0).2.1 = ["cblas_DDOT", "junk"]) ∧
    (["cblas_DGEMV", "cblas_dgemv"].countP
        (fun nm => (dispatch2 64 32 nm).isSome) = 1 ∧
      (run_level2 {} 0 64 32 (fun _ => 1)
        ["cblas_DGEMV", "cblas_dgemv"] 0).1.length = 1 ∧
      (run_level2 {} 0 64 32 (fun _ => 1)
        ["cblas_DGEMV", "cblas_dgemv"] 0).1.map
          (fun r => r.function_name) = ["dgemv"] ∧
      (run_level2 {} 0 64 32 (fun _ => 1)
        ["cblas_DGEMV", "cblas_dgemv"] 0).2.1 = ["cblas_DGEMV"]) ∧
    (["bogus", "cblas_dgemm"].countP
        (fun nm => (dispatch3 8 4 2 nm).isSome) = 1 ∧
      (run_level3 {} 0 8 4 2 (fun _ => 1)
        ["bogus", "cblas_dgemm"] 0).1.length = 1 ∧
      (run_level3 {} 0 8 4 2 (fun _ => 1)
        ["bogus", "cblas_dgemm"] 0).1.map
          (fun r => r.function_name) = ["dgemm"] ∧
      (run_level3 {} 0 8 4 2 (fun _ => 1)
        ["bogus", "cblas_dgemm"] 0).2.1 = ["bogus"]) := by
  have h1 : (["cblas_DDOT", "cblas_ddot", "junk"].countP
      (fun nm => (dispatch1 1000 nm).isSome) = 1) := by decide
  have h2 : (["cblas_DGEMV", "cblas_dgemv"].countP
      (fun nm => (dispatch2 64 32 nm).isSome) = 1) := by decide
  have h3 : (["bogus", "cblas_dgemm"].countP
      (fun nm => (dispatch3 8 4 2 nm).isSome) = 1) := by decide
  have hc := c7_unknown_skipped {} 0 1000 64 32 8 4 2 (fun _ => 1)
    ["cblas_DDOT", "cblas_ddot", "junk"] ["cblas_DGEMV", "cblas_dgemv"]
    ["bogus", "cblas_dgemm"] 0
  obtain ⟨hl1, hl2, hl3, _, _, _⟩ := hc
  obtain ⟨ha1, ha2, ha3, _⟩ := hl1 h1
  obtain ⟨hb1, hb2, hb3, _⟩ := hl2 h2
  obtain ⟨hd1, hd2, hd3, _⟩ := hl3 h3
  refine ⟨⟨h1, ha1, ?_, ?_⟩, ⟨h2, hb1, ?_, ?_⟩, ⟨h3, hd1, ?_, ?_⟩⟩
  · rw [ha2]; decide
  · rw [ha3]; decide
  · rw [hb2]; decide
  · rw [hb3]; decide
  · rw [hd2]; decide
  · rw [hd3]; decide

/-! ### Result field invariants -/

/-- Field consistency of one result: the gflops field is the flops field
divided by (the avg_time_ms field times 10^6), and the threads field is
the configured thread count. -/
def result_invariant (cfg : BenchmarkConfig) (r : BenchmarkResult) : Prop :=
  r.gflops = (r.flops : ℚ) / (r.avg_time_ms * 10 ^ 6) ∧ r.threads = cfg.threads

/-- The flops field of a level-1 result is the FLOP model value at the
configured level-1 size, for the operation named by the result. -/
def level1_flops_ok (n : Nat) (r : BenchmarkResult) : Prop :=
  (r.function_name = "ddot" ∧ r.flops = flops.dot n) ∨
  (r.function_name = "daxpy" ∧ r.flops = flops.axpy n) ∨
  (r.function_name = "dscal" ∧ r.flops = flops.scal n)

/-- The flops field of a level-2 result is the gemv FLOP model value at
the configured (M, N). -/
def level2_flops_ok (m n : Nat) (r : BenchmarkResult) : Prop :=
  r.function_name = "dgemv" ∧ r.flops = flops.gemv m n

/-- The flops field of a level-3 result is the gemm FLOP model value at
the configured (M, N, K). -/
def level3_flops_ok (m n k : Nat) (r : BenchmarkResult) : Prop :=
  r.function_name = "dgemm" ∧ r.flops = flops.gemm m n k

/-- Every result filled in by run_single_benchmark satisfies the field
consistency invariant: gflops = flops / ((avg/1000) * 1e9)
= flops / (avg * 1e6), and threads is copied from the configuration. -/
theorem run_single_invariant (cfg : BenchmarkConfig) (cacheSize : Nat)
    (name cstr : String) (fc : Nat) (elapsed : Nat → ℚ) (s : Nat) :
    result_invariant cfg
      (run_single_benchmark cfg cacheSize name cstr fc elapsed s).1 := by
  constructor
  · show (fc : ℚ) /
        ((avg_time (collect_times cfg.warmup cfg.flush_cache cacheSize
            elapsed cfg.cycles s).1 / 1000) * 10 ^ 9) =
      (fc : ℚ) /
        (avg_time (collect_times cfg.warmup cfg.flush_cache cacheSize
            elapsed cfg.cycles s).1 * 10 ^ 6)
    congr 1
    ring
  · rfl

/-- A successful level-1 dispatch yields one of the three name/FLOP
pairs, at the configured size. -/
theorem dispatch1_eq_some (n : Nat) (nm : String) (df : String × Nat)
    (h : dispatch1 n nm = some df) :
    df = ("ddot", flops.dot n) ∨ df = ("daxpy", flops.axpy n) ∨
      df = ("dscal", flops.scal n) := by
  rw [dispatch1] at h
  split_ifs at h <;> simp_all

/-- A successful level-2 dispatch yields the dgemv name/FLOP pair. -/
theorem dispatch2_eq_some (m n : Nat) (nm : String) (df : String × Nat)
    (h : dispatch2 m n nm = some df) : df = ("dgemv", flops.gemv m n) := by
  rw [dispatch2] at h
  split_ifs at h <;> simp_all

/-- A successful level-3 dispatch yields the dgemm name/FLOP pair. -/
theorem dispatch3_eq_some (m n k : Nat) (nm : String) (df : String × Nat)
    (h : dispatch3 m n k nm = some df) : df = ("dgemm", flops.gemm m n k) := by
  rw [dispatch3] at h
  split_ifs at h <;> simp_all

/-- Every level-1 result is a run_single_benchmark output for some
successfully dispatched configured name. -/
theorem run_level1_mem (cfg : BenchmarkConfig) (cacheSize n : Nat)
    (elapsed : Nat → ℚ) : ∀ names s r,
    r ∈ (run_level1 cfg cacheSize n elapsed names s).1 →
    ∃ nm df st, dispatch1 n nm = some df ∧
      r = (run_single_benchmark cfg cacheSize df.1 (l1_config_str n) df.2
        elapsed st).1 := by
  intro names
  induction names with
  | nil => intro s r hr; simp [run_level1] at hr
  | cons name rest ih =>
    intro s r hr
    cases hd : dispatch1 n name with
    | some df =>
      simp only [run_level1, hd, List.mem_cons] at hr
      rcases hr with rfl | hr
      · exact ⟨name, df, s, hd, rfl⟩
      · exact ih _ r hr
    | none =>
      simp only [run_level1, hd] at hr
      exact ih _ r hr

/-- Every level-2 result is a run_single_benchmark output for some
successfully dispatched configured name. -/
theorem run_level2_mem (cfg : BenchmarkConfig) (cacheSize m n : Nat)
    (elapsed : Nat → ℚ) : ∀ names s r,
    r ∈ (run_level2 cfg cacheSize m n elapsed names s).1 →
    ∃ nm df st, dispatch2 m n nm = some df ∧
      r = (run_single_benchmark cfg cacheSize df.1 (l2_config_str m n) df.2
        elapsed st).1 := by
  intro names
  induction names with
  | nil => intro s r hr; simp [run_level2] at hr
  | cons name rest ih =>
    intro s r hr
    cases hd : dispatch2 m n name with
    | some df =>
      simp only [run_level2, hd, List.mem_cons] at hr
      rcases hr with rfl | hr
      · exact ⟨name, df, s, hd, rfl⟩
      · exact ih _ r hr
    | none =>
      simp only [run_level2, hd] at hr
      exact ih _ r hr

/-- Every level-3 result is a run_single_benchmark output for some
successfully dispatched configured name. -/
theorem run_level3_mem (cfg : BenchmarkConfig) (cacheSize m n k : Nat)
    (elapsed : Nat → ℚ) : ∀ names s r,
    r ∈ (run_level3 cfg cacheSize m n k elapsed names s).1 →
    ∃ nm df st, dispatch3 m n k nm = some df ∧
      r = (run_single_benchmark cfg cacheSize df.1 (l3_config_str m n k) df.2
        elapsed st).1 := by
  intro names
  induction names with
  | nil => intro s r hr; simp [run_level3] at hr
  | cons name rest ih =>
    intro s r hr
    cases hd : dispatch3 m n k name with
    | some df =>
      simp only [run_level3, hd, List.mem_cons] at hr
      rcases hr with rfl | hr
      · exact ⟨name, df, s, hd, rfl⟩
      · exact ih _ r hr
    | none =>
      simp only [run_level3, hd] at hr
      exact ih _ r hr

/-- Level-1 results of run_all come from run_level1 at the configured
level-1 size. -/
theorem run_all_level1_mem (cfg : BenchmarkConfig) (cacheSize : Nat)
    (elapsed : Nat → ℚ) (s : Nat) :
    ∀ r ∈ (run_all cfg cacheSize elapsed s).1.level1_results,
    ∃ n, cfg.level1_size = some n ∧
      r ∈ (run_level1 cfg cacheSize n elapsed cfg.level1_functions s).1 := by
  intro r hr
  simp only [run_all] at hr
  split at hr
  · rename_i n heq
    split at hr
    · simp at hr
    · exact ⟨n, heq, hr⟩
  · simp at hr

/-- Level-2 results of run_all come from run_level2 at the configured
level-2 shape (from some intermediate invocation counter). -/
theorem run_all_level2_mem (cfg : BenchmarkConfig) (cacheSize : Nat)
    (elapsed : Nat → ℚ) (s : Nat) :
    ∀ r ∈ (run_all cfg cacheSize elapsed s).1.level2_results,
    ∃ m n st, cfg.level2_size = some (m, n) ∧
      r ∈ (run_level2 cfg cacheSize m n elapsed cfg.level2_functions st).1 := by
  intro r hr
  simp only [run_all] at hr
  split at hr
  · rename_i mn heq
    split at hr
    · simp at hr
    · exact ⟨mn.1, mn.2, _, by rw [heq], hr⟩
  · simp at hr

/-- Level-3 results of run_all come from run_level3 at the configured
level-3 shape (from some intermediate invocation counter). -/
theorem run_all_level3_mem (cfg : BenchmarkConfig) (cacheSize : Nat)
    (elapsed : Nat → ℚ) (s : Nat) :
    ∀ r ∈ (run_all cfg cacheSize elapsed s).1.level3_results,
    ∃ m n k st, cfg.level3_size = some (m, n, k) ∧
      r ∈ (run_level3 cfg cacheSize m n k elapsed cfg.level3_functions st).1 := by
  intro r hr
  simp only [run_all] at hr
  split at hr
  · rename_i mnk heq
    split at hr
    · simp at hr
    · exact ⟨mnk.1, mnk.2.1, mnk.2.2, _, by rw [heq], hr⟩
  · simp at hr

/-- C10: every BenchmarkResult produced by a run (cycles >= 1, as every
actual run has) satisfies the field consistency invariant: gflops equals
flops divided by (avg_time_ms times 10^6), threads equals the configured
thread count, and flops equals the FLOP model value for the operation's
configured shape. -/
theorem c10_result_invariant (cfg : BenchmarkConfig) (cacheSize : Nat)
    (elapsed : Nat → ℚ) (s : Nat) (hc : 1 ≤ cfg.cycles) :
    (∀ r ∈ (run_all cfg cacheSize elapsed s).1.level1_results,
      result_invariant cfg r ∧
        ∃ n, cfg.level1_size = some n ∧ level1_flops_ok n r) ∧
    (∀ r ∈ (run_all cfg cacheSize elapsed s).1.level2_results,
      result_invariant cfg r ∧
        ∃ m n, cfg.level2_size = some (m, n) ∧ level2_flops_ok m n r) ∧
    (∀ r ∈ (run_all cfg cacheSize elapsed s).1.level3_results,
      result_invariant cfg r ∧
        ∃ m n k, cfg.level3_size = some (m, n, k) ∧ level3_flops_ok m n k r) := by
  refine ⟨?_, ?_, ?_⟩
  · intro r hr
    obtain ⟨n, hn, hmem⟩ := run_all_level1_mem cfg cacheSize elapsed s r hr
    obtain ⟨nm, df, st, hd, rfl⟩ :=
      run_level1_mem cfg cacheSize n elapsed cfg.level1_functions s r hmem
    refine ⟨run_single_invariant cfg cacheSize df.1 (l1_config_str n) df.2 elapsed st,
      n, hn, ?_⟩
    rcases dispatch1_eq_some n nm df hd with rfl | rfl | rfl
    · exact Or.inl ⟨rfl, rfl⟩
    · exact Or.inr (Or.inl ⟨rfl, rfl⟩)
    · exact Or.inr (Or.inr ⟨rfl, rfl⟩)
  · intro r hr
    obtain ⟨m, n, st0, hn, hmem⟩ := run_all_level2_mem cfg cacheSize elapsed s r hr
    obtain ⟨nm, df, st, hd, rfl⟩ :=
      run_level2_mem cfg cacheSize m n elapsed cfg.level2_functions st0 r hmem
    refine ⟨run_single_invariant cfg cacheSize df.1 (l2_config_str m n) df.2 elapsed st,
      m, n, hn, ?_⟩
    rcases dispatch2_eq_some m n nm df hd with rfl
    exact ⟨rfl, rfl⟩
  · intro r hr
    obtain ⟨m, n, k, st0, hn, hmem⟩ := run_all_level3_mem cfg cacheSize elapsed s r hr
    obtain ⟨nm, df, st, hd, rfl⟩ :=
      run_level3_mem cfg cacheSize m n k elapsed cfg.level3_functions st0 r hmem
    refine ⟨run_single_invariant cfg cacheSize df.1 (l3_config_str m n k) df.2 elapsed st,
      m, n, k, hn, ?_⟩
    rcases dispatch3_eq_some m n k nm df hd with rfl
    exact ⟨rfl, rfl⟩

/-- Configuration exercising all three levels for the C10 witness. -/
def cfgC10 : BenchmarkConfig :=
  { threads := 4, cycles := 1, warmup := 0, flush_cache := false,
    level1_size := some 2, level2_size := some (2, 3),
    level3_size := some (2, 3, 4),
    level1_functions := ["cblas_ddot"], level2_functions := ["cblas_dgemv"],
    level3_functions := ["cblas_dgemm"] }

/-- Report of the C10 witness run (all timed calls stubbed to 1 ms). -/
def repC10 : BenchmarkReport := (run_all cfgC10 0 (fun _ => 1) 0).1

/-- The single level-1 result of the witness run. -/
def r1C10 : BenchmarkResult :=
  (run_single_benchmark cfgC10 0 "ddot" (l1_config_str 2) (flops.dot 2)
    (fun _ => 1) 0).1

/-- The single level-2 result of the witness run. -/
def r2C10 : BenchmarkResult :=
  (run_single_benchmark cfgC10 0 "dgemv" (l2_config_str 2 3) (flops.gemv 2 3)
    (fun _ => 1) 1).1

/-- The single level-3 result of the witness run. -/
def r3C10 : BenchmarkResult :=
  (run_single_benchmark cfgC10 0 "dgemm" (l3_config_str 2 3 4)
    (flops.gemm 2 3 4) (fun _ => 1) 2).1

/-- Witness for C10: each level of the witness run produces a result
satisfying the field consistency invariant. -/
theorem c10_witness :
    1 ≤ cfgC10.cycles ∧
    r1C10 ∈ repC10.level1_results ∧
    (result_invariant cfgC10 r1C10 ∧
      ∃ n, cfgC10.level1_size = some n ∧ level1_flops_ok n r1C10) ∧
    r2C10 ∈ repC10.level2_results ∧
    (result_invariant cfgC10 r2C10 ∧
      ∃ m n, cfgC10.level2_size = some (m, n) ∧ level2_flops_ok m n r2C10) ∧
    r3C10 ∈ repC10.level3_results ∧
    (result_invariant cfgC10 r3C10 ∧
      ∃ m n k, cfgC10.level3_size = some (m, n, k) ∧
        level3_flops_ok m n k r3C10) := by
  have h1 : r1C10 ∈ (run_all cfgC10 0 (fun _ => 1) 0).1.level1_results := by
    show r1C10 ∈ [r1C10]
    exact List.mem_singleton.mpr rfl
  have h2 : r2C10 ∈ (run_all cfgC10 0 (fun _ => 1) 0).1.level2_results := by
    show r2C10 ∈ [r2C10]
    exact List.mem_singleton.mpr rfl
  have h3 : r3C10 ∈ (run_all cfgC10 0 (fun _ => 1) 0).1.level3_results := by
    show r3C10 ∈ [r3C10]
    exact List.mem_singleton.mpr rfl
  have hmain := c10_result_invariant cfgC10 0 (fun _ => 1) 0 (by decide)
  exact ⟨by decide, h1, hmain.1 r1C10 h1, h2, hmain.2.1 r2C10 h2,
    h3, hmain.2.2 r3C10 h3⟩

/-- Witness for C6 (amended): the all-defaults configuration (no sizes)
is rejected, while cfgC6 (size but empty operation list) passes
validation. -/
theorem c6_witness :
    sizes_configured ({} : BenchmarkConfig) = false ∧
    (spec_level_runnable cfgC6 = false ∧ cfgC6.level1_size = some 1000 ∧
      cfgC6.level1_functions = [] ∧ sizes_configured cfgC6 = true) :=
  ⟨(c6_amended {}).1.mpr ⟨rfl, rfl, rfl⟩,
   ⟨rfl, rfl, rfl, (c6_amended cfgC6).2 rfl rfl rfl⟩⟩
